import Mathlib

set_option linter.unusedVariables false

/-!
Verification of the perfume-order persistence and notification pipeline.

The server is a single express application.  We embed its order pipeline
shallowly: JavaScript runtime values become an inductive type, the Excel
workbook becomes a record of a header row and data rows, and each route
handler becomes a pure function from its inputs (request body, product
catalog, file state, wall clock, notification outcome) to a response and
a new file state.  ExcelJS worksheet columns are modelled by their header
labels (the length of the label list is the column count the code tests).
-/

/-- JavaScript values as they occur in this server: strings, numbers,
booleans, null and undefined.  A request field that is absent from the
body destructures to undefined. -/
inductive JSVal where
  | vStr (s : String)
  | vNum (n : Int)
  | vBool (b : Bool)
  | vNull
  | vUndefined
deriving DecidableEq

/-- JavaScript truthiness: the empty string, the number 0, false, null and
undefined are falsy; everything else here is truthy. -/
def jsTruthy : JSVal → Bool
  | .vStr s => s != ("")
  | .vNum n => n != 0
  | .vBool b => b
  | .vNull => false
  | .vUndefined => false

/-- JavaScript x.toString() for the values above (numbers render in
decimal with no leading zeros, so 7 stringifies to the same text as
the string 7 but not as 0 followed by 7). -/
def jsToString : JSVal → String
  | .vStr s => s
  | .vNum n => toString n
  | .vBool b => if b then ("true") else ("false")
  | .vNull => ("null")
  | .vUndefined => ("undefined")

/-- JavaScript a or-else b: a when a is truthy, otherwise b.  Models the
expression orderData[col.key] or-else the empty string. -/
def jsOr (a b : JSVal) : JSVal := if jsTruthy a then a else b

/-- One entry of the fixedColumns list: header label, machine key,
display width. -/
structure Column where
  header : String
  key : String
  width : Nat
deriving DecidableEq

/-- An ExcelJS worksheet: its header labels (row 1 / column definitions)
and its data rows. -/
structure Sheet where
  headers : List String
  rows : List (List JSVal)
deriving DecidableEq

/-- An Excel workbook: the worksheet named Orders, if present, and any
other worksheets the file holds. -/
structure Workbook where
  orders : Option Sheet
  others : List (String × Sheet)
deriving DecidableEq

/-- The state of the store path on disk: absent, present but not readable
as a workbook, or a parsed workbook. -/
inductive FileState where
  | missing
  | unparseable
  | parsed (wb : Workbook)
deriving DecidableEq

/-- The canonical seven columns, exactly as the fixedColumns literal in
the order route (and the identical literal in initializeExcel). -/
def fixedColumns : List Column :=
  [⟨"Name", "name", 20⟩,
   ⟨"Phone", "phone", 20⟩,
   ⟨"Perfume ID", "perfumeId", 15⟩,
   ⟨"Perfume Name", "perfumeName", 25⟩,
   ⟨"Quantity", "quantity", 10⟩,
   ⟨"Delivery Address", "deliveryAddress", 30⟩,
   ⟨"Date", "date", 25⟩]

/-- The canonical seven header labels in order. -/
def canonicalHeaders : List String := fixedColumns.map Column.header

/-- A fresh Orders sheet: canonical header, no data rows. -/
def emptySheet : Sheet := ⟨canonicalHeaders, []⟩

/-- initializeExcel: try to read the file and find the Orders worksheet;
on success do nothing (no write), on any failure write a brand-new
workbook holding a single Orders sheet with the canonical columns. -/
def initializeExcel : FileState → FileState
  | .parsed wb =>
    match wb.orders with
    | some _ => .parsed wb
    | none => .parsed ⟨some emptySheet, []⟩
  | .missing => .parsed ⟨some emptySheet, []⟩
  | .unparseable => .parsed ⟨some emptySheet, []⟩

/-- The body of a POST order-perfume request after destructuring: the five
named fields (undefined when absent) and whatever extra fields the rest
pattern collected. -/
structure OrderBody where
  name : JSVal
  phone : JSVal
  perfumeId : JSVal
  quantity : JSVal
  deliveryAddress : JSVal
  extraFields : List (String × JSVal)
deriving DecidableEq

/-- One catalog entry of perfumes.json, restricted to the fields the
pipeline reads. -/
structure Perfume where
  id : JSVal
  name : JSVal
deriving DecidableEq

/-- The validation check: true when any of the five required fields is
falsy, in which case the route answers 400 at once. -/
def missingRequired (b : OrderBody) : Bool :=
  !(jsTruthy b.name && jsTruthy b.phone && jsTruthy b.perfumeId &&
    jsTruthy b.quantity && jsTruthy b.deliveryAddress)

/-- The catalog lookup: the first entry whose id stringifies equal to the
stringified request perfumeId. -/
def findPerfume (catalog : List Perfume) (pid : JSVal) : Option Perfume :=
  catalog.find? (fun p => jsToString p.id == jsToString pid)

/-- Model of new-Date-toLocaleString at clock instant t: a human-readable
rendering of the instant, abstracted to the decimal digits of t.  It is
nonempty and determined by the instant, which is all the pipeline relies
on. -/
def jsDateString (t : Nat) : String := (Nat.toDigits 10 t).asString

/-- The orderData object: the validated fields, the perfumeId and
quantity stringified, the perfumeName resolved from the catalog entry,
and the date stamped from the clock at the moment of writing. -/
structure OrderDraft where
  name : JSVal
  phone : JSVal
  perfumeId : JSVal
  perfumeName : JSVal
  quantity : JSVal
  deliveryAddress : JSVal
  date : JSVal
deriving DecidableEq

/-- Build orderData from the body, the resolved catalog entry and the
write-moment clock. -/
def mkOrderData (b : OrderBody) (p : Perfume) (t : Nat) : OrderDraft :=
  ⟨b.name, b.phone, .vStr (jsToString b.perfumeId), p.name,
   .vStr (jsToString b.quantity), b.deliveryAddress, .vStr (jsDateString t)⟩

/-- JavaScript property access orderData[k]: the field for a canonical
key, undefined for any other key. -/
def draftGet (d : OrderDraft) : String → JSVal
  | "name" => d.name
  | "phone" => d.phone
  | "perfumeId" => d.perfumeId
  | "perfumeName" => d.perfumeName
  | "quantity" => d.quantity
  | "deliveryAddress" => d.deliveryAddress
  | "date" => d.date
  | _ => .vUndefined

/-- rowData: project orderData through the fixed columns in order,
falling back to the empty string for a falsy value. -/
def buildRowData (d : OrderDraft) : List JSVal :=
  fixedColumns.map (fun c => jsOr (draftGet d c.key) (.vStr ("")))

/-- The defensive column check of the order route: a missing sheet is
recreated with the fixed columns; an existing sheet keeps its rows, and
its columns are reset to the fixed ones exactly when the column count is
zero or differs from the fixed count. -/
def reconcileSheet : Option Sheet → Sheet
  | none => emptySheet
  | some s =>
    if s.headers.length == 0 || s.headers.length != fixedColumns.length then
      ⟨canonicalHeaders, s.rows⟩
    else s

/-- The JSON responses the order route can emit. -/
inductive OrderResponse where
  | ok (data : OrderDraft)
  | badRequest
  | notFound
  | serverError
deriving DecidableEq

/-- What a request to the order route produces: the response and the
resulting state of the store file. -/
structure OrderResult where
  response : OrderResponse
  file : FileState
deriving DecidableEq

/-- The notification attempt: succeeds or fails according to the
environment outcome emailOk. -/
def sendEmail (emailOk : Bool) (d : OrderDraft) : Except String Unit :=
  if emailOk then .ok () else .error ("Email sending failed")

/-- The POST order-perfume route.  Validate the five fields (400), resolve
the perfume against the catalog (404), read the workbook (an unreadable
or missing file throws into the outer catch, 500), reconcile the Orders
sheet columns, append the projected row, write the file, then attempt the
notification with its failure caught and logged only, and answer 200 with
orderData. -/
def orderPerfume (b : OrderBody) (catalog : List Perfume) (file : FileState)
    (t : Nat) (emailOk : Bool) : OrderResult :=
  if missingRequired b then
    ⟨.badRequest, file⟩
  else
    match findPerfume catalog b.perfumeId with
    | none => ⟨.notFound, file⟩
    | some p =>
      match file with
      | .parsed wb =>
        let sheet := reconcileSheet wb.orders
        let d := mkOrderData b p t
        let sheet2 : Sheet := ⟨sheet.headers, sheet.rows ++ [buildRowData d]⟩
        let newFile := FileState.parsed ⟨some sheet2, wb.others⟩
        match sendEmail emailOk d with
        | .ok _ => ⟨.ok d, newFile⟩
        | .error _ => ⟨.ok d, newFile⟩
      | .missing => ⟨.serverError, file⟩
      | .unparseable => ⟨.serverError, file⟩

/-- The Orders worksheet of a file state, when the file parses and holds
one. -/
def ordersSheet : FileState → Option Sheet
  | .parsed wb => wb.orders
  | .missing => none
  | .unparseable => none

/-- The responses of the GET orders download route. -/
inductive DownloadResponse where
  | forbidden
  | fileDownload
  | fileNotFound
deriving DecidableEq

/-- JavaScript falsiness of the access-key header value: absent or the
empty string. -/
def jsHeaderFalsy : Option String → Bool
  | none => true
  | some s => s == ("")

/-- The GET orders route: 403 when the header is falsy or differs from
the configured secret (strict equality on possibly-undefined strings),
otherwise a file download when the store file exists and 404 when it does
not. -/
def ordersDownload (headerKey envKey : Option String) (fileExists : Bool) :
    DownloadResponse :=
  if jsHeaderFalsy headerKey || headerKey != envKey then .forbidden
  else if fileExists then .fileDownload
  else .fileNotFound

lemma toDigitsCore_keeps_ne_nil (b : Nat) :
    ∀ (fuel n : Nat) (ds : List Char), ds ≠ [] → Nat.toDigitsCore b fuel n ds ≠ [] := by
  intro fuel
  induction fuel with
  | zero => intro n ds h; simpa [Nat.toDigitsCore] using h
  | succ f ih =>
    intro n ds h
    simp only [Nat.toDigitsCore]
    split
    · simp
    · exact ih (n / b) (Nat.digitChar (n % b) :: ds) (by simp)

lemma jsDateString_ne_empty (t : Nat) : jsDateString t ≠ ("") := by
  unfold jsDateString
  have h : Nat.toDigits 10 t ≠ [] := by
    unfold Nat.toDigits
    simp only [Nat.toDigitsCore]
    split
    · simp
    · exact toDigitsCore_keeps_ne_nil 10 t (t / 10) [Nat.digitChar (t % 10)] (by simp)
  intro hcontra
  apply h
  simpa [List.asString, String.ext_iff] using hcontra

lemma jsTruthy_dateString (t : Nat) : jsTruthy (.vStr (jsDateString t)) = true := by
  simp [jsTruthy, bne_iff_ne, jsDateString_ne_empty t]

lemma canonicalHeaders_length : canonicalHeaders.length = fixedColumns.length := by
  simp [canonicalHeaders]

lemma reconcileSheet_headers_length (o : Option Sheet) :
    (reconcileSheet o).headers.length = fixedColumns.length := by
  cases o with
  | none => simp [reconcileSheet, emptySheet, canonicalHeaders]
  | some s =>
    simp only [reconcileSheet]
    split
    · exact canonicalHeaders_length
    · rename_i hcond
      simp only [Bool.or_eq_true, beq_iff_eq, bne_iff_ne, not_or, Decidable.not_not] at hcond
      exact hcond.2

lemma reconcileSheet_keeps (h : List String) (r : List (List JSVal))
    (hlen : h.length = fixedColumns.length) :
    reconcileSheet (some ⟨h, r⟩) = ⟨h, r⟩ := by
  simp only [reconcileSheet, hlen]
  simp [fixedColumns]

lemma orderPerfume_of_missing (b : OrderBody) (catalog : List Perfume)
    (file : FileState) (t : Nat) (e : Bool) (h : missingRequired b = true) :
    orderPerfume b catalog file t e = ⟨.badRequest, file⟩ := by
  simp [orderPerfume, h]

lemma orderPerfume_of_noMatch (b : OrderBody) (catalog : List Perfume)
    (file : FileState) (t : Nat) (e : Bool)
    (hm : missingRequired b = false)
    (hf : findPerfume catalog b.perfumeId = none) :
    orderPerfume b catalog file t e = ⟨.notFound, file⟩ := by
  simp [orderPerfume, hm, hf]

lemma orderPerfume_of_ok (b : OrderBody) (catalog : List Perfume)
    (wb : Workbook) (t : Nat) (e : Bool) (p : Perfume)
    (hm : missingRequired b = false)
    (hf : findPerfume catalog b.perfumeId = some p) :
    orderPerfume b catalog (.parsed wb) t e =
      ⟨.ok (mkOrderData b p t),
       .parsed ⟨some ⟨(reconcileSheet wb.orders).headers,
                      (reconcileSheet wb.orders).rows ++ [buildRowData (mkOrderData b p t)]⟩,
               wb.others⟩⟩ := by
  cases e <;> simp [orderPerfume, hm, hf, sendEmail]

lemma jsTruthy_ne_nullish (v : JSVal) (h : jsTruthy v = true) :
    v ≠ .vNull ∧ v ≠ .vUndefined := by
  cases v <;> simp_all [jsTruthy]

lemma jsOr_emptyStr_ne_nullish (a : JSVal) :
    jsOr a (.vStr ("")) ≠ .vNull ∧ jsOr a (.vStr ("")) ≠ .vUndefined := by
  unfold jsOr
  split
  · rename_i h
    exact jsTruthy_ne_nullish a h
  · simp

lemma buildRowData_length (d : OrderDraft) :
    (buildRowData d).length = fixedColumns.length := by
  simp [buildRowData]

lemma buildRowData_get (d : OrderDraft) (i : Nat) (c : Column)
    (hc : fixedColumns[i]? = some c) :
    (buildRowData d)[i]? = some (jsOr (draftGet d c.key) (.vStr (""))) := by
  simp [buildRowData, List.getElem?_map, hc]

lemma buildRowData_date (d : OrderDraft) (h : jsTruthy d.date = true) :
    (buildRowData d)[6]? = some d.date := by
  simp [buildRowData, fixedColumns, draftGet, jsOr, h]

lemma missingRequired_iff (b : OrderBody) :
    missingRequired b = true ↔
      (jsTruthy b.name = false ∨ jsTruthy b.phone = false ∨
       jsTruthy b.perfumeId = false ∨ jsTruthy b.quantity = false ∨
       jsTruthy b.deliveryAddress = false) := by
  unfold missingRequired
  cases jsTruthy b.name <;> cases jsTruthy b.phone <;> cases jsTruthy b.perfumeId <;>
    cases jsTruthy b.quantity <;> cases jsTruthy b.deliveryAddress <;> simp

/-- Claim C5: a failure of the email notification step changes neither the
HTTP response nor the stored file: running the order route with a failing
notification environment yields exactly the same result as with a
succeeding one, for every request and every prior file state. -/
theorem C5_notification_isolation (b : OrderBody) (catalog : List Perfume)
    (file : FileState) (t : Nat) :
    orderPerfume b catalog file t false = orderPerfume b catalog file t true := by
  cases hm : missingRequired b
  · cases hfp : findPerfume catalog b.perfumeId
    · rw [orderPerfume_of_noMatch b catalog file t false hm hfp,
          orderPerfume_of_noMatch b catalog file t true hm hfp]
    · rename_i p
      cases file with
      | parsed wb =>
        rw [orderPerfume_of_ok b catalog wb t false p hm hfp,
            orderPerfume_of_ok b catalog wb t true p hm hfp]
      | missing => simp [orderPerfume, hm, hfp]
      | unparseable => simp [orderPerfume, hm, hfp]
  · rw [orderPerfume_of_missing b catalog file t false hm,
        orderPerfume_of_missing b catalog file t true hm]

/-- Claim C6: on every startup state in which the store is missing,
unparseable, or parseable without an Orders worksheet, the initializer
writes a brand-new store holding exactly one Orders table with the
canonical seven-column header and zero data rows, discarding any prior
content. -/
theorem C6_destructive_repair (fs : FileState)
    (h : fs = .missing ∨ fs = .unparseable ∨
         ∃ wb, fs = .parsed wb ∧ wb.orders = none) :
    initializeExcel fs = .parsed ⟨some ⟨canonicalHeaders, []⟩, []⟩ := by
  rcases h with rfl | rfl | ⟨wb, rfl, hwb⟩
  · rfl
  · rfl
  · simp [initializeExcel, hwb, emptySheet]

theorem C6_witness :
    initializeExcel .missing = .parsed ⟨some ⟨canonicalHeaders, []⟩, []⟩ :=
  C6_destructive_repair .missing (Or.inl rfl)

/-- Claim C7: running the initializer on a path already holding a valid
store (a parsed workbook with an Orders worksheet) leaves the file
unchanged, and the initializer is idempotent on every file state. -/
theorem C7_idempotent_init (wb : Workbook) (s : Sheet) (h : wb.orders = some s) :
    initializeExcel (.parsed wb) = .parsed wb ∧
    (∀ fs : FileState, initializeExcel (initializeExcel fs) = initializeExcel fs) := by
  constructor
  · simp [initializeExcel, h]
  · intro fs
    cases fs with
    | parsed wb2 =>
      cases ho : wb2.orders <;> simp [initializeExcel, ho, emptySheet]
    | missing => rfl
    | unparseable => rfl

theorem C7_witness :
    initializeExcel (.parsed ⟨some emptySheet, []⟩) = .parsed ⟨some emptySheet, []⟩ :=
  (C7_idempotent_init ⟨some emptySheet, []⟩ emptySheet rfl).1

/-- Claim C10: when the ACCESS_KEY environment value is not configured,
the download route answers 403 for every request, whatever header value
the client supplies: the endpoint fails closed. -/
theorem C10_fails_closed (hk : Option String) (f : Bool) :
    ordersDownload hk none f = .forbidden := by
  cases hk with
  | none => rfl
  | some s => simp [ordersDownload, jsHeaderFalsy]

/-- Claim C1, counterexample: a successful append against a prior Orders
sheet that already has exactly seven columns with noncanonical labels
ends with those labels untouched, because the write-time check only
compares the column count.  The claim as stated requires the canonical
labels for every prior column state, wrong labels included. -/
theorem C1_counterexample :
    (orderPerfume
        ⟨.vStr ("Ana"), .vStr ("555"), .vStr ("2"), .vStr ("1"), .vStr ("Main St"), []⟩
        [⟨.vNum 2, .vStr ("Rose")⟩]
        (.parsed ⟨some ⟨["A", "B", "C", "D", "E", "F", "G"], []⟩, []⟩)
        1000 true).response
      = .ok (mkOrderData
          ⟨.vStr ("Ana"), .vStr ("555"), .vStr ("2"), .vStr ("1"), .vStr ("Main St"), []⟩
          ⟨.vNum 2, .vStr ("Rose")⟩ 1000) ∧
    (ordersSheet (orderPerfume
        ⟨.vStr ("Ana"), .vStr ("555"), .vStr ("2"), .vStr ("1"), .vStr ("Main St"), []⟩
        [⟨.vNum 2, .vStr ("Rose")⟩]
        (.parsed ⟨some ⟨["A", "B", "C", "D", "E", "F", "G"], []⟩, []⟩)
        1000 true).file).map Sheet.headers
      = some ["A", "B", "C", "D", "E", "F", "G"] ∧
    (["A", "B", "C", "D", "E", "F", "G"] : List String) ≠ canonicalHeaders := by
  refine ⟨?_, ?_, ?_⟩ <;> decide

/-- Claim C1 (amended): for every successful order append whose prior
parsed workbook lacks the Orders sheet or holds one whose column count
differs from seven (which covers the missing-sheet, zero-column and
wrong-count states), the write ends with the canonical seven header
labels; a prior sheet with exactly seven columns keeps its existing
labels even when they are not the canonical ones. -/
theorem C1_schema_invariant (b : OrderBody) (catalog : List Perfume)
    (wb : Workbook) (t : Nat) (e : Bool) (p : Perfume)
    (hm : missingRequired b = false)
    (hf : findPerfume catalog b.perfumeId = some p)
    (hcols : ∀ s, wb.orders = some s → s.headers.length ≠ fixedColumns.length) :
    (ordersSheet (orderPerfume b catalog (.parsed wb) t e).file).map Sheet.headers
      = some canonicalHeaders := by
  rw [orderPerfume_of_ok b catalog wb t e p hm hf]
  cases ho : wb.orders with
  | none => simp [ordersSheet, reconcileSheet, emptySheet]
  | some s =>
    have hne := hcols s ho
    have hc : (s.headers.length == 0 || s.headers.length != fixedColumns.length) = true := by
      simp [Bool.or_eq_true, bne_iff_ne, hne]
    simp [ordersSheet, reconcileSheet, ho, hc]

theorem C1_witness :
    missingRequired
        ⟨.vStr ("Ana"), .vStr ("555"), .vStr ("2"), .vStr ("1"), .vStr ("Main St"), []⟩
      = false ∧
    (ordersSheet (orderPerfume
        ⟨.vStr ("Ana"), .vStr ("555"), .vStr ("2"), .vStr ("1"), .vStr ("Main St"), []⟩
        [⟨.vNum 2, .vStr ("Rose")⟩]
        (.parsed ⟨none, []⟩) 1000 true).file).map Sheet.headers
      = some canonicalHeaders :=
  ⟨by decide,
   C1_schema_invariant
     ⟨.vStr ("Ana"), .vStr ("555"), .vStr ("2"), .vStr ("1"), .vStr ("Main St"), []⟩
     [⟨.vNum 2, .vStr ("Rose")⟩] ⟨none, []⟩ 1000 true ⟨.vNum 2, .vStr ("Rose")⟩
     (by decide) (by decide) (fun s hs => nomatch hs)⟩

/-- Claim C3: the order route answers 400 exactly when one of the five
required fields is falsy (absent, empty string, zero, false, null or
undefined all count as missing), and a 400 answer leaves the store file
untouched, so no row is appended. -/
theorem C3_required_fields (b : OrderBody) (catalog : List Perfume)
    (file : FileState) (t : Nat) (e : Bool) :
    ((orderPerfume b catalog file t e).response = .badRequest ↔
      (jsTruthy b.name = false ∨ jsTruthy b.phone = false ∨
       jsTruthy b.perfumeId = false ∨ jsTruthy b.quantity = false ∨
       jsTruthy b.deliveryAddress = false)) ∧
    ((orderPerfume b catalog file t e).response = .badRequest →
      orderPerfume b catalog file t e = ⟨.badRequest, file⟩) := by
  cases hm : missingRequired b
  · have hresp : (orderPerfume b catalog file t e).response ≠ .badRequest := by
      cases hfp : findPerfume catalog b.perfumeId
      · rw [orderPerfume_of_noMatch b catalog file t e hm hfp]
        simp
      · rename_i p
        cases file with
        | parsed wb =>
          rw [orderPerfume_of_ok b catalog wb t e p hm hfp]
          simp
        | missing => simp [orderPerfume, hm, hfp]
        | unparseable => simp [orderPerfume, hm, hfp]
    have hrhs : ¬ (jsTruthy b.name = false ∨ jsTruthy b.phone = false ∨
        jsTruthy b.perfumeId = false ∨ jsTruthy b.quantity = false ∨
        jsTruthy b.deliveryAddress = false) := by
      intro hx
      have hmx := (missingRequired_iff b).mpr hx
      rw [hm] at hmx
      cases hmx
    exact ⟨⟨fun hr => absurd hr hresp, fun hx => absurd hx hrhs⟩,
           fun hr => absurd hr hresp⟩
  · rw [orderPerfume_of_missing b catalog file t e hm]
    exact ⟨⟨fun _ => (missingRequired_iff b).mp hm, fun _ => rfl⟩, fun _ => rfl⟩

theorem C3_witness :
    (orderPerfume
        ⟨.vStr ("Ana"), .vStr ("555"), .vStr ("2"), .vNum 0, .vStr ("Main St"), []⟩
        [⟨.vNum 2, .vStr ("Rose")⟩] (.parsed ⟨some emptySheet, []⟩) 9 true).response
      = .badRequest ∧
    orderPerfume
        ⟨.vStr ("Ana"), .vStr ("555"), .vStr ("2"), .vNum 0, .vStr ("Main St"), []⟩
        [⟨.vNum 2, .vStr ("Rose")⟩] (.parsed ⟨some emptySheet, []⟩) 9 true
      = ⟨.badRequest, .parsed ⟨some emptySheet, []⟩⟩ :=
  ⟨(C3_required_fields
      ⟨.vStr ("Ana"), .vStr ("555"), .vStr ("2"), .vNum 0, .vStr ("Main St"), []⟩
      [⟨.vNum 2, .vStr ("Rose")⟩] (.parsed ⟨some emptySheet, []⟩) 9 true).1.mpr
     (by decide),
   (C3_required_fields
      ⟨.vStr ("Ana"), .vStr ("555"), .vStr ("2"), .vNum 0, .vStr ("Main St"), []⟩
      [⟨.vNum 2, .vStr ("Rose")⟩] (.parsed ⟨some emptySheet, []⟩) 9 true).2
     (by decide)⟩

/-- Claim C4: once the five fields validate, the catalog lookup succeeds
exactly when some entry's id stringifies equal to the stringified request
perfumeId; with no match the route answers 404 and leaves the store file
untouched, and on a 200 answer the persisted perfumeName is the matching
catalog entry's name. -/
theorem C4_catalog_lookup (b : OrderBody) (catalog : List Perfume)
    (file : FileState) (t : Nat) (e : Bool)
    (hm : missingRequired b = false) :
    ((orderPerfume b catalog file t e).response = .notFound ↔
       findPerfume catalog b.perfumeId = none) ∧
    (findPerfume catalog b.perfumeId = none ↔
       ∀ p ∈ catalog, jsToString p.id ≠ jsToString b.perfumeId) ∧
    (findPerfume catalog b.perfumeId = none →
       orderPerfume b catalog file t e = ⟨.notFound, file⟩) ∧
    (∀ d, (orderPerfume b catalog file t e).response = .ok d →
       ∃ p, findPerfume catalog b.perfumeId = some p ∧ d.perfumeName = p.name) := by
  have h2 : findPerfume catalog b.perfumeId = none ↔
      ∀ p ∈ catalog, jsToString p.id ≠ jsToString b.perfumeId := by
    simp [findPerfume, List.find?_eq_none]
  cases hfp : findPerfume catalog b.perfumeId with
  | none =>
    rw [orderPerfume_of_noMatch b catalog file t e hm hfp]
    rw [hfp] at h2
    refine ⟨by simp, h2, fun _ => rfl, fun d hd => nomatch hd⟩
  | some p =>
    have hresp : (orderPerfume b catalog file t e).response ≠ .notFound := by
      cases file with
      | parsed wb =>
        rw [orderPerfume_of_ok b catalog wb t e p hm hfp]
        simp
      | missing => simp [orderPerfume, hm, hfp]
      | unparseable => simp [orderPerfume, hm, hfp]
    refine ⟨?_, ?_, ?_, ?_⟩
    · exact ⟨fun hr => absurd hr hresp, fun hn => nomatch hn⟩
    · rw [hfp] at h2
      exact h2
    · intro hn
      exact absurd hn (by simp)
    · intro d hd
      cases file with
      | parsed wb =>
        rw [orderPerfume_of_ok b catalog wb t e p hm hfp] at hd
        have hd2 : mkOrderData b p t = d := by
          cases hd
          rfl
        exact ⟨p, rfl, hd2 ▸ rfl⟩
      | missing => simp [orderPerfume, hm, hfp] at hd
      | unparseable => simp [orderPerfume, hm, hfp] at hd

theorem C4_witness :
    orderPerfume
        ⟨.vStr ("N"), .vStr ("P"), .vStr ("07"), .vStr ("1"), .vStr ("A"), []⟩
        [⟨.vNum 7, .vStr ("Seven")⟩] (.parsed ⟨some emptySheet, []⟩) 4 true
      = ⟨.notFound, .parsed ⟨some emptySheet, []⟩⟩ ∧
    (∃ p, findPerfume [⟨.vNum 7, .vStr ("Seven")⟩]
        (OrderBody.perfumeId ⟨.vStr ("N"), .vStr ("P"), .vStr ("7"), .vStr ("1"), .vStr ("A"), []⟩)
          = some p ∧
       (mkOrderData ⟨.vStr ("N"), .vStr ("P"), .vStr ("7"), .vStr ("1"), .vStr ("A"), []⟩
          ⟨.vNum 7, .vStr ("Seven")⟩ 4).perfumeName = p.name) :=
  ⟨(C4_catalog_lookup
      ⟨.vStr ("N"), .vStr ("P"), .vStr ("07"), .vStr ("1"), .vStr ("A"), []⟩
      [⟨.vNum 7, .vStr ("Seven")⟩] (.parsed ⟨some emptySheet, []⟩) 4 true
      (by decide)).2.2.1 (by decide),
   (C4_catalog_lookup
      ⟨.vStr ("N"), .vStr ("P"), .vStr ("7"), .vStr ("1"), .vStr ("A"), []⟩
      [⟨.vNum 7, .vStr ("Seven")⟩] (.parsed ⟨some emptySheet, []⟩) 4 true
      (by decide)).2.2.2
     (mkOrderData ⟨.vStr ("N"), .vStr ("P"), .vStr ("7"), .vStr ("1"), .vStr ("A"), []⟩
        ⟨.vNum 7, .vStr ("Seven")⟩ 4)
     (by decide)⟩

/-- Claim C2: on a valid order request the route ignores every extra body
field (the whole outcome is unchanged by them), the appended row is the
draft projected through the canonical seven columns in order (one cell
per fixed column, so seven cells, nothing else), and a canonical field
whose draft value is falsy is written as the empty string, never as null
or undefined. -/
theorem C2_field_projection (b : OrderBody) (catalog : List Perfume) (wb : Workbook)
    (t : Nat) (e : Bool) (p : Perfume)
    (hm : missingRequired b = false)
    (hf : findPerfume catalog b.perfumeId = some p) :
    (∀ extras : List (String × JSVal),
       orderPerfume ⟨b.name, b.phone, b.perfumeId, b.quantity, b.deliveryAddress, extras⟩
         catalog (.parsed wb) t e
         = orderPerfume b catalog (.parsed wb) t e) ∧
    ordersSheet (orderPerfume b catalog (.parsed wb) t e).file
      = some ⟨(reconcileSheet wb.orders).headers,
              (reconcileSheet wb.orders).rows ++ [buildRowData (mkOrderData b p t)]⟩ ∧
    (buildRowData (mkOrderData b p t)).length = fixedColumns.length ∧
    (∀ (i : Nat) (c : Column), fixedColumns[i]? = some c →
       (buildRowData (mkOrderData b p t))[i]?
         = some (jsOr (draftGet (mkOrderData b p t) c.key) (.vStr ("")))) ∧
    (∀ v ∈ buildRowData (mkOrderData b p t), v ≠ .vNull ∧ v ≠ .vUndefined) := by
  refine ⟨?_, ?_, buildRowData_length _, fun i c hc => buildRowData_get _ i c hc, ?_⟩
  · intro extras
    rfl
  · rw [orderPerfume_of_ok b catalog wb t e p hm hf]
    rfl
  · intro v hv
    simp only [buildRowData, List.mem_map] at hv
    obtain ⟨c, hc, rfl⟩ := hv
    exact jsOr_emptyStr_ne_nullish _

theorem C2_witness :
    missingRequired
        ⟨.vStr ("Ana"), .vStr ("555"), .vNum 2, .vStr ("1"), .vStr ("Main St"), []⟩
      = false ∧
    orderPerfume
        ⟨.vStr ("Ana"), .vStr ("555"), .vNum 2, .vStr ("1"), .vStr ("Main St"),
         [(("note"), .vStr ("gift wrap"))]⟩
        [⟨.vNum 2, .vStr ("Rose")⟩] (.parsed ⟨some emptySheet, []⟩) 8 true
      = orderPerfume
          ⟨.vStr ("Ana"), .vStr ("555"), .vNum 2, .vStr ("1"), .vStr ("Main St"), []⟩
          [⟨.vNum 2, .vStr ("Rose")⟩] (.parsed ⟨some emptySheet, []⟩) 8 true ∧
    (buildRowData (mkOrderData
        ⟨.vStr ("Ana"), .vStr ("555"), .vNum 2, .vStr ("1"), .vStr ("Main St"), []⟩
        ⟨.vNum 2, .vStr ("Rose")⟩ 8)).length = fixedColumns.length :=
  ⟨by decide,
   (C2_field_projection
      ⟨.vStr ("Ana"), .vStr ("555"), .vNum 2, .vStr ("1"), .vStr ("Main St"), []⟩
      [⟨.vNum 2, .vStr ("Rose")⟩] ⟨some emptySheet, []⟩ 8 true ⟨.vNum 2, .vStr ("Rose")⟩
      (by decide) (by decide)).1 [(("note"), .vStr ("gift wrap"))],
   (C2_field_projection
      ⟨.vStr ("Ana"), .vStr ("555"), .vNum 2, .vStr ("1"), .vStr ("Main St"), []⟩
      [⟨.vNum 2, .vStr ("Rose")⟩] ⟨some emptySheet, []⟩ 8 true ⟨.vNum 2, .vStr ("Rose")⟩
      (by decide) (by decide)).2.2.1⟩

/-- Claim C8: two sequential valid orders (the second starting after the
first's response, so at a clock instant no earlier than the first write)
append exactly two rows after whatever rows the store held, the two rows
have the same column count, and each row's date cell is the rendering of
the wall clock at its own write moment, those instants being
non-decreasing in request order. -/
theorem C8_sequential_orders (b1 b2 : OrderBody) (catalog : List Perfume)
    (wb : Workbook) (t1 t2 : Nat) (e1 e2 : Bool) (p1 p2 : Perfume)
    (hseq : t1 ≤ t2)
    (hm1 : missingRequired b1 = false)
    (hf1 : findPerfume catalog b1.perfumeId = some p1)
    (hm2 : missingRequired b2 = false)
    (hf2 : findPerfume catalog b2.perfumeId = some p2) :
    (orderPerfume b1 catalog (.parsed wb) t1 e1).response = .ok (mkOrderData b1 p1 t1) ∧
    (orderPerfume b2 catalog (orderPerfume b1 catalog (.parsed wb) t1 e1).file t2 e2).response
      = .ok (mkOrderData b2 p2 t2) ∧
    ordersSheet
        (orderPerfume b2 catalog (orderPerfume b1 catalog (.parsed wb) t1 e1).file t2 e2).file
      = some ⟨(reconcileSheet wb.orders).headers,
              (reconcileSheet wb.orders).rows ++
                [buildRowData (mkOrderData b1 p1 t1), buildRowData (mkOrderData b2 p2 t2)]⟩ ∧
    (buildRowData (mkOrderData b1 p1 t1)).length
      = (buildRowData (mkOrderData b2 p2 t2)).length ∧
    (buildRowData (mkOrderData b1 p1 t1))[6]? = some (.vStr (jsDateString t1)) ∧
    (buildRowData (mkOrderData b2 p2 t2))[6]? = some (.vStr (jsDateString t2)) ∧
    t1 ≤ t2 := by
  have hkeep : reconcileSheet (some ⟨(reconcileSheet wb.orders).headers,
      (reconcileSheet wb.orders).rows ++ [buildRowData (mkOrderData b1 p1 t1)]⟩)
      = ⟨(reconcileSheet wb.orders).headers,
         (reconcileSheet wb.orders).rows ++ [buildRowData (mkOrderData b1 p1 t1)]⟩ :=
    reconcileSheet_keeps _ _ (reconcileSheet_headers_length wb.orders)
  have hresp1 : (orderPerfume b1 catalog (.parsed wb) t1 e1).response
      = .ok (mkOrderData b1 p1 t1) := by
    rw [orderPerfume_of_ok b1 catalog wb t1 e1 p1 hm1 hf1]
  have hfile1 : (orderPerfume b1 catalog (.parsed wb) t1 e1).file
      = .parsed ⟨some ⟨(reconcileSheet wb.orders).headers,
                       (reconcileSheet wb.orders).rows ++ [buildRowData (mkOrderData b1 p1 t1)]⟩,
                 wb.others⟩ := by
    rw [orderPerfume_of_ok b1 catalog wb t1 e1 p1 hm1 hf1]
  have h2 := orderPerfume_of_ok b2 catalog
      ⟨some ⟨(reconcileSheet wb.orders).headers,
             (reconcileSheet wb.orders).rows ++ [buildRowData (mkOrderData b1 p1 t1)]⟩,
       wb.others⟩ t2 e2 p2 hm2 hf2
  refine ⟨hresp1, ?_, ?_, ?_, ?_, ?_, hseq⟩
  · rw [hfile1, h2]
  · rw [hfile1, h2]
    simp [ordersSheet, hkeep]
  · rw [buildRowData_length, buildRowData_length]
  · exact buildRowData_date (mkOrderData b1 p1 t1) (jsTruthy_dateString t1)
  · exact buildRowData_date (mkOrderData b2 p2 t2) (jsTruthy_dateString t2)

theorem C8_witness :
    (3 : Nat) ≤ 5 ∧
    ordersSheet
        (orderPerfume
          ⟨.vStr ("Bob"), .vStr ("777"), .vStr ("2"), .vStr ("2"), .vStr ("Oak St"), []⟩
          [⟨.vNum 2, .vStr ("Rose")⟩]
          (orderPerfume
            ⟨.vStr ("Ana"), .vStr ("555"), .vStr ("2"), .vStr ("1"), .vStr ("Main St"), []⟩
            [⟨.vNum 2, .vStr ("Rose")⟩] (.parsed ⟨some emptySheet, []⟩) 3 true).file
          5 true).file
      = some ⟨(reconcileSheet (some emptySheet)).headers,
              (reconcileSheet (some emptySheet)).rows ++
                [buildRowData (mkOrderData
                   ⟨.vStr ("Ana"), .vStr ("555"), .vStr ("2"), .vStr ("1"), .vStr ("Main St"), []⟩
                   ⟨.vNum 2, .vStr ("Rose")⟩ 3),
                 buildRowData (mkOrderData
                   ⟨.vStr ("Bob"), .vStr ("777"), .vStr ("2"), .vStr ("2"), .vStr ("Oak St"), []⟩
                   ⟨.vNum 2, .vStr ("Rose")⟩ 5)]⟩ :=
  ⟨by decide,
   (C8_sequential_orders
      ⟨.vStr ("Ana"), .vStr ("555"), .vStr ("2"), .vStr ("1"), .vStr ("Main St"), []⟩
      ⟨.vStr ("Bob"), .vStr ("777"), .vStr ("2"), .vStr ("2"), .vStr ("Oak St"), []⟩
      [⟨.vNum 2, .vStr ("Rose")⟩] ⟨some emptySheet, []⟩ 3 5 true true
      ⟨.vNum 2, .vStr ("Rose")⟩ ⟨.vNum 2, .vStr ("Rose")⟩
      (by decide) (by decide) (by decide) (by decide) (by decide)).2.2.1⟩

/-- Claim C9, counterexample: with the configured secret equal to the
empty string and the client sending an empty access-key header, the
header equals the secret and the store file is absent, yet the route
answers 403 rather than 404, because the check first rejects every falsy
header value.  The claim as stated promises 404 whenever the key matches
and the file is absent. -/
theorem C9_counterexample :
    ((some ("") : Option String) = some ("")) ∧
    ordersDownload (some ("")) (some ("")) false = .forbidden ∧
    DownloadResponse.forbidden ≠ .fileNotFound := by
  refine ⟨rfl, ?_, ?_⟩ <;> decide

/-- Claim C9 (amended): the download route answers 403 exactly when the
access-key header is absent, empty, or different from the configured
secret (the 403 body carries no file content); when the header is
present, nonempty and equal to the secret, the route sends the file when
the store file exists and answers 404 when it does not. -/
theorem C9_access_control (hk ek : Option String) (f : Bool) :
    (ordersDownload hk ek f = .forbidden ↔
       (hk = none ∨ hk = some ("") ∨ hk ≠ ek)) ∧
    (hk ≠ none → hk ≠ some ("") → hk = ek →
       ((ordersDownload hk ek f = .fileDownload ↔ f = true) ∧
        (ordersDownload hk ek f = .fileNotFound ↔ f = false))) := by
  cases hk with
  | none =>
    refine ⟨?_, fun hn _ _ => absurd rfl hn⟩
    simp [ordersDownload, jsHeaderFalsy]
  | some s =>
    by_cases hse : s = ("")
    · subst hse
      refine ⟨?_, fun _ h2 _ => absurd rfl h2⟩
      simp [ordersDownload, jsHeaderFalsy]
    · by_cases heq : (some s : Option String) = ek
      · subst heq
        refine ⟨?_, fun _ _ _ => ?_⟩
        · cases f <;> simp [ordersDownload, jsHeaderFalsy, hse]
        · cases f <;> simp [ordersDownload, jsHeaderFalsy, hse]
      · refine ⟨?_, fun _ _ h3 => absurd h3 heq⟩
        have hcond : (jsHeaderFalsy (some s) || (some s != ek)) = true := by
          simp [bne_iff_ne, heq]
        simp [ordersDownload, hcond, heq]

theorem C9_witness :
    ordersDownload (some ("w")) (some ("k")) true = .forbidden ∧
    ordersDownload (some ("k")) (some ("k")) false = .fileNotFound :=
  ⟨(C9_access_control (some ("w")) (some ("k")) true).1.mpr
     (Or.inr (Or.inr (by decide))),
   ((C9_access_control (some ("k")) (some ("k")) false).2
     (by decide) (by decide) rfl).2.mpr rfl⟩
